import Mathlib

/-!
Verification of the task-lifecycle core of the telegram-reminder-scheduler repository.

The embedding models, from the sources:
  * `shared/database.py` — the Task Store over SQLite, modelled as a list of rows plus an
    AUTOINCREMENT counter (`add_scheduled_message`, `get_all_active_messages`,
    `get_message_by_id`, `deactivate_message`, `update_next_publish_time`);
  * `scheduler_logic.py` — the Delivery Dispatcher (`publish_message`) and the
    Fire-and-Reschedule Protocol (`publish_and_reschedule`, `deactivate_chat_tasks`);
  * `bot.py` — the Scheduler Loop timer rebuild (`schedule_all_jobs`).

Timestamps are stored in the database as ISO-8601 UTC strings and re-parsed with
`datetime.fromisoformat`; since that round-trip is the identity, the embedding stores
calendar timestamps (`DateTime`) directly.  Chronological order on well-formed UTC
timestamps is the lexicographic order on (year, month, day, seconds-of-day), which is
what `DateTime.lt` implements.

The Telegram transport is abstracted by an environment `TgEnv` recording the outcome the
external calls would have: the outcome of the send call and the outcome of the pin call.
Exception classes of python-telegram-bot are modelled by `TgErr`: `BadRequest` and
`Forbidden` (both subclasses of `TelegramError`), any other `TelegramError`, and any
other `Exception`.

The store sets no `sqlite3.Row` row factory, so the rows it hands back are plain
tuples; `scheduler_logic.py` nevertheless subscripts them with column names
(`task['publish_at']` at line 180, `task['max_end_date']` at 194, `task['chat_id']` at
266, `task['id']` at 267), which raises `TypeError` at run time.  The embedding keeps
the column values in the `Row` record and models every such string subscript as the
always-raising operation `row_str_subscript`, so the protocol's exception arms — not
the dead code behind the subscripts — determine the modelled behavior.

`bot.py` is a special case: it imports its store from a top-level module `database`
that is not among the provided sources, and unpacks 13 columns per row (matching
`shared/models.py`), not the 15 of `shared/database.py`; the scan it reads is
therefore modelled from the spec (see `bot_get_all_active_messages`).
-/

set_option linter.unusedVariables false
set_option maxRecDepth 2000

/-- A UTC calendar timestamp: year, month (1-12), day (1-31) and seconds within the day.
Mirrors the `datetime.datetime` values the code parses out of its ISO-8601 columns. -/
structure DateTime where
  year : Nat
  month : Nat
  day : Nat
  secs : Nat
  deriving DecidableEq, Repr

/-- Chronological (lexicographic) strict order on calendar timestamps; this is the order
`datetime.__lt__` implements for the comparisons in the code. -/
def DateTime.lt (a b : DateTime) : Prop :=
  a.year < b.year ∨ (a.year = b.year ∧ (a.month < b.month ∨ (a.month = b.month ∧
    (a.day < b.day ∨ (a.day = b.day ∧ a.secs < b.secs)))))

instance (a b : DateTime) : Decidable (DateTime.lt a b) := by
  unfold DateTime.lt; infer_instance

/-- Gregorian leap-year rule, as implemented by python's `calendar`/`datetime`. -/
def isLeap (y : Nat) : Bool :=
  (y % 4 == 0 && y % 100 != 0) || y % 400 == 0

/-- Number of days in a month of the Gregorian calendar. -/
def daysInMonth (y m : Nat) : Nat :=
  if m == 2 then (if isLeap y then 29 else 28)
  else if m == 4 || m == 6 || m == 9 || m == 11 then 30
  else 31

/-- The next calendar day, keeping the time of day (`timedelta(days=1)`). -/
def succDay (d : DateTime) : DateTime :=
  if d.day < daysInMonth d.year d.month then
    { d with day := d.day + 1 }
  else if d.month < 12 then
    { d with month := d.month + 1, day := 1 }
  else
    { year := d.year + 1, month := 1, day := 1, secs := d.secs }

/-- Adding `n` days to a timestamp (`timedelta(days=n)`). -/
def addDays (d : DateTime) : Nat → DateTime
  | 0 => d
  | n + 1 => succDay (addDays d n)

/-- Advancing a timestamp by one calendar month, clamping the day of month to the last
valid day of the target month. -/
def addMonthClamped (d : DateTime) : DateTime :=
  if d.month == 12 then
    { year := d.year + 1, month := 1, day := min d.day (daysInMonth (d.year + 1) 1),
      secs := d.secs }
  else
    { year := d.year, month := d.month + 1,
      day := min d.day (daysInMonth d.year (d.month + 1)), secs := d.secs }

/-- The repeat cadence column `recurrence` (`TEXT` in the database, one of the four
strings produced by the inline keyboard in `bot.py`). -/
inductive Recurrence
  | once
  | daily
  | weekly
  | monthly
  deriving DecidableEq, Repr

/-- Modelled from the spec: the Recurrence Calculator `next_recurrence_time` lives in
`shared/utils.py`, which is not among the provided sources (only its callers are).  This
definition follows §4.2 of the spec word for word: `once` → none; `daily` → `last` + 1
day; `weekly` → `last` + 7 days; `monthly` → `last` advanced by one calendar month, with
the day-of-month clamped to the target month's last valid day. -/
def next_recurrence_time (original : DateTime) (recurrence : Recurrence)
    (last : DateTime) : Option DateTime :=
  match recurrence with
  | .once => none
  | .daily => some (addDays last 1)
  | .weekly => some (addDays last 7)
  | .monthly => some (addMonthClamped last)

/-- Modelled from the spec: `generate_task_hash` lives in `shared/utils.py`, which is not
among the provided sources.  The spec (§3, Glossary) describes it as a deterministic
digest of its inputs; the call site in `shared/database.py` passes exactly
(chat_id, text, photo_file_id, document_file_id, publish_at, recurrence) — in particular
no caption.  It is modelled as a collision-free deterministic digest: the tuple of those
six inputs. -/
structure TaskHash where
  chat_id : Int
  text : Option String
  photo_file_id : Option String
  document_file_id : Option String
  publish_at : DateTime
  recurrence : Recurrence
  deriving DecidableEq, Repr

/-- Modelled from the spec: see `TaskHash`. -/
def generate_task_hash (chat_id : Int) (text photo_file_id document_file_id : Option String)
    (publish_at : DateTime) (recurrence : Recurrence) : TaskHash :=
  { chat_id := chat_id, text := text, photo_file_id := photo_file_id,
    document_file_id := document_file_id, publish_at := publish_at,
    recurrence := recurrence }

/-- The `data` dict handed to `add_scheduled_message` by the conversational flow. -/
structure Candidate where
  chat_id : Int
  text : Option String
  photo_file_id : Option String
  document_file_id : Option String
  caption : Option String
  publish_at : DateTime
  recurrence : Recurrence
  pin : Bool
  notify : Bool
  delete_after_days : Option Nat
  deriving DecidableEq, Repr

/-- One row of the `scheduled_messages` table. -/
structure Row where
  id : Nat
  chat_id : Int
  text : Option String
  photo_file_id : Option String
  document_file_id : Option String
  caption : Option String
  publish_at : DateTime
  original_publish_at : DateTime
  recurrence : Recurrence
  pin : Bool
  notify : Bool
  delete_after_days : Option Nat
  active : Bool
  created_at : DateTime
  max_end_date : DateTime
  task_hash : TaskHash
  deriving DecidableEq, Repr

/-- The SQLite store: the table contents plus the AUTOINCREMENT counter that produces
the next fresh primary key. -/
structure DB where
  rows : List Row
  nextId : Nat
  deriving DecidableEq, Repr

/-- The `ValueError` raised by `add_scheduled_message` on a duplicate (the spec's
`DuplicateTask`); the message carries the id of the existing active row. -/
inductive AdmitError
  | duplicateTask (existing_id : Nat)
  deriving DecidableEq, Repr

/-- Admission (`add_scheduled_message` in `shared/database.py`): computes the task hash
over (chat_id, text, photo_file_id, document_file_id, publish_at, recurrence), rejects
if an active row already carries that hash, otherwise inserts a new active row with
`original_publish_at := publish_at`, `created_at := now` and
`max_end_date := now + 365 days`, returning the fresh id.  The two `utcnow()` calls of
the source happen back to back and are modelled as the single instant `now`.  The
schema-migration retry path repeats the same INSERT and is therefore not modelled
separately. -/
def add_scheduled_message (now : DateTime) (data : Candidate) (db : DB) :
    Except AdmitError (DB × Nat) :=
  let task_hash := generate_task_hash data.chat_id data.text data.photo_file_id
    data.document_file_id data.publish_at data.recurrence
  match db.rows.find? (fun r => r.task_hash == task_hash && r.active) with
  | some existing => .error (.duplicateTask existing.id)
  | none =>
      let row : Row :=
        { id := db.nextId, chat_id := data.chat_id, text := data.text,
          photo_file_id := data.photo_file_id, document_file_id := data.document_file_id,
          caption := data.caption, publish_at := data.publish_at,
          original_publish_at := data.publish_at, recurrence := data.recurrence,
          pin := data.pin, notify := data.notify,
          delete_after_days := data.delete_after_days, active := true,
          created_at := now, max_end_date := addDays now 365, task_hash := task_hash }
      .ok ({ rows := db.rows ++ [row], nextId := db.nextId + 1 }, db.nextId)

/-- The `ORDER BY publish_at` comparison used by `get_all_active_messages`. -/
def publishBefore (a b : Row) : Prop := ¬ DateTime.lt b.publish_at a.publish_at

instance (a b : Row) : Decidable (publishBefore a b) := by
  unfold publishBefore; infer_instance

/-- The `listActive` scan (`get_all_active_messages`): all rows with `active = 1`,
ordered ascending by `publish_at`. -/
def get_all_active_messages (db : DB) : List Row :=
  (db.rows.filter (fun r => r.active)).insertionSort publishBefore

/-- Point read by primary key (`get_message_by_id`). -/
def get_message_by_id (db : DB) (msg_id : Nat) : Option Row :=
  db.rows.find? (fun r => r.id == msg_id)

/-- Logical deletion (`deactivate_message`): `UPDATE ... SET active = 0 WHERE id = ?`. -/
def deactivate_message (db : DB) (msg_id : Nat) : DB :=
  { db with rows := (db.rows.map
      (fun r => if r.id = msg_id then { r with active := false } else r)) }

/-- Reschedule write (`update_next_publish_time`): reads the row's `active` flag first
and silently no-ops (logs only) when the row is missing or has gone inactive; otherwise
`UPDATE ... SET publish_at = ? WHERE id = ?`. -/
def update_next_publish_time (db : DB) (msg_id : Nat) (next_time : DateTime) : DB :=
  match get_message_by_id db msg_id with
  | none => db
  | some row =>
      if row.active then
        { db with rows := (db.rows.map
            (fun r => if r.id = msg_id then { r with publish_at := next_time } else r)) }
      else db

/-- Exception classes of the transport library, as the code's handlers distinguish
them: `BadRequest`, `Forbidden`, any other `TelegramError` (timeouts, network errors —
the spec's `TransientError`), and any other `Exception`. -/
inductive TgErr
  | badRequest
  | forbidden
  | otherTelegram
  | otherException
  deriving DecidableEq, Repr

/-- Outcome of the external send call inside `publish_message`. -/
inductive SendOutcome
  | sent (message_id : Nat)
  | err (e : TgErr)
  deriving DecidableEq, Repr

/-- Outcome of the external `pin_chat_message` call (relevant only when a pin is
attempted). -/
inductive PinOutcome
  | pinned
  | err (e : TgErr)
  deriving DecidableEq, Repr

/-- The abstract channel capability: what the external Telegram calls would return. -/
structure TgEnv where
  send : SendOutcome
  pinResult : PinOutcome
  deriving DecidableEq, Repr

/-- The Delivery Dispatcher (`publish_message` in `scheduler_logic.py`).  Sends the
content, then — when `pin` is set — attempts `pin_chat_message` inside an inner
`try/except (BadRequest, Forbidden)` that logs and swallows; the deferred-deletion task
is detached and never raises into this function.  The outer handlers re-raise
`BadRequest`/`Forbidden` and turn any other `TelegramError` or `Exception` into a
`None` return.  Returns `Except.error` for a raised exception and `Except.ok` for a
normal return (the delivered message id, or `none`). -/
def publish_message (env : TgEnv) (chat_id : Int)
    (text photo_file_id document_file_id caption : Option String)
    (pin notify : Bool) (delete_after_days : Option Nat) : Except TgErr (Option Nat) :=
  match env.send with
  | .err .badRequest => .error .badRequest
  | .err .forbidden => .error .forbidden
  | .err .otherTelegram => .ok none
  | .err .otherException => .ok none
  | .sent message_id =>
      if pin then
        match env.pinResult with
        | .pinned => .ok (some message_id)
        | .err .badRequest => .ok (some message_id)
        | .err .forbidden => .ok (some message_id)
        | .err .otherTelegram => .ok none
        | .err .otherException => .ok none
      else .ok (some message_id)

/-- The exception a string subscript on a python tuple raises
(`TypeError: tuple indices must be integers or slices, not str`). -/
inductive PyErr
  | typeError
  deriving DecidableEq, Repr

/-- A string subscript `task['column']` evaluated on a Task Store row.
`get_db_connection` in `shared/database.py` sets no `row_factory`, so
`fetchone`/`fetchall` hand back plain tuples, and a string subscript on a tuple always
raises `TypeError`, whatever the requested column or its expected type. -/
def row_str_subscript (α : Type) (task : Row) (column : String) : Except PyErr α :=
  .error .typeError

/-- The `for task in tasks` loop of `deactivate_chat_tasks`
(scheduler_logic.py:265-269).  Each iteration's guard evaluates `task['chat_id']`, a
string subscript on a tuple row, which raises `TypeError` — before any
`deactivate_message` call of that iteration.  The loop returns the store as mutated so
far together with the exception that escaped it, if any, so writes performed before a
raise would persist. -/
def deactivate_chat_tasks_loop (chat_id : Int) (acc : DB) :
    List Row → DB × Option PyErr
  | [] => (acc, none)
  | task :: rest =>
      match row_str_subscript Int task "chat_id" with
      | .error e => (acc, some e)
      | .ok c =>
          if c = chat_id then
            match row_str_subscript Nat task "id" with
            | .error e => (acc, some e)
            | .ok i =>
                deactivate_chat_tasks_loop chat_id (deactivate_message acc i) rest
          else
            deactivate_chat_tasks_loop chat_id acc rest

/-- Channel-wide suspension (`deactivate_chat_tasks` in `scheduler_logic.py`):
snapshots the active rows and loops over them; on any non-empty snapshot the first
iteration's `task['chat_id']` raises `TypeError`, which the function's own
`except Exception` (lines 274-275) swallows after logging — so the store comes back
exactly as the loop left it, with no row deactivated. -/
def deactivate_chat_tasks (db : DB) (chat_id : Int) : DB :=
  (deactivate_chat_tasks_loop chat_id db (get_all_active_messages db)).1

/-- The Fire-and-Reschedule Protocol (`publish_and_reschedule` in
`scheduler_logic.py`).  Delivers via `publish_message`; on a `None` result returns
with no store mutation.  On a delivered id: a `once` task is deactivated; for a
recurring task the row is re-read and line 180 evaluates `task['publish_at']` — a
string subscript on the tuple row — which raises `TypeError`, caught by the
`except (TypeError, ValueError)` arm at lines 181-183, so the function returns with no
store mutation.  The code below that subscript (next-occurrence computation, 365-day
ceiling, advance or deactivate, lines 186-213) is unreachable; it is embedded behind
the subscript so the control flow stays parallel to the source (`task['max_end_date']`
at line 194 would raise the same way into the outer `except Exception`, which logs and
mutates nothing).  A raised `BadRequest`/`Forbidden` from the delivery is caught and
triggers `deactivate_chat_tasks` for the whole channel; any other exception is logged
and leaves the store untouched. -/
def publish_and_reschedule (env : TgEnv) (msg_id : Nat) (chat_id : Int)
    (text photo_file_id document_file_id caption : Option String)
    (recurrence : Recurrence) (pin notify : Bool) (delete_after_days : Option Nat)
    (original_publish_at : DateTime) (db : DB) : DB :=
  match publish_message env chat_id text photo_file_id document_file_id caption
      pin notify delete_after_days with
  | .error .badRequest => deactivate_chat_tasks db chat_id
  | .error .forbidden => deactivate_chat_tasks db chat_id
  | .error .otherTelegram => db
  | .error .otherException => db
  | .ok none => db
  | .ok (some _) =>
      if recurrence ≠ Recurrence.once then
        match get_message_by_id db msg_id with
        | none => db
        | some task =>
            match row_str_subscript DateTime task "publish_at" with
            | .error _ => db
            | .ok last_publish_time =>
                match next_recurrence_time original_publish_at recurrence
                    last_publish_time with
                | some next_time =>
                    match row_str_subscript DateTime task "max_end_date" with
                    | .error _ => db
                    | .ok max_end_date =>
                        if DateTime.lt max_end_date next_time then
                          deactivate_message db msg_id
                        else
                          update_next_publish_time db msg_id next_time
                | none => deactivate_message db msg_id
      else
        deactivate_message db msg_id

/-- One armed one-shot timer of the Scheduler Loop (`job_queue.run_once` target time and
the row it will fire). -/
structure Job where
  msg_id : Nat
  publish_at : DateTime
  deriving DecidableEq, Repr

/-- The 13 columns `bot.py:206` unpacks from one row of its store's active scan —
exactly the fields of the `ScheduledMessage` dataclass in `shared/models.py`. -/
structure BotRow where
  id : Nat
  chat_id : Int
  text : Option String
  photo_file_id : Option String
  document_file_id : Option String
  caption : Option String
  publish_at : DateTime
  original_publish_at : DateTime
  recurrence : Recurrence
  pin : Bool
  notify : Bool
  delete_after_days : Option Nat
  active : Bool
  deriving DecidableEq, Repr

/-- Modelled from the spec: `bot.py` imports its Task Store from a top-level module
`database` that is not among the provided sources (the provided store is
`shared/database.py`, whose 15-column scan would not fit the 13-variable unpack at
`bot.py:206`; the 13 variables match `shared/models.py`'s `ScheduledMessage`).  The
absent module's `get_all_active_messages` is modelled from §4.1 of the spec — every
active row of the durable state, ascending by `publish_at` — carrying the 13 columns
the unpack names. -/
def bot_get_all_active_messages (db : DB) : List BotRow :=
  (get_all_active_messages db).map (fun r =>
    { id := r.id, chat_id := r.chat_id, text := r.text,
      photo_file_id := r.photo_file_id, document_file_id := r.document_file_id,
      caption := r.caption, publish_at := r.publish_at,
      original_publish_at := r.original_publish_at, recurrence := r.recurrence,
      pin := r.pin, notify := r.notify, delete_after_days := r.delete_after_days,
      active := r.active })

/-- The timer-set rebuild (`schedule_all_jobs` in `bot.py`): removes every armed job,
reloads the active rows from its store (spec-modelled, see
`bot_get_all_active_messages`) and arms one one-shot timer per loaded row — but only
when the row's `publish_at` is strictly later than `utcnow()`; rows already due or
overdue are skipped.  The function returns the freshly armed timer set. -/
def schedule_all_jobs (now : DateTime) (db : DB) : List Job :=
  ((bot_get_all_active_messages db).filter
      (fun row => DateTime.lt now row.publish_at)).map
    (fun row => { msg_id := row.id, publish_at := row.publish_at })

/-- Concrete sample data used by witnesses and counterexamples below. -/
def sampleCreated : DateTime := ⟨2024, 4, 30, 0⟩

/-- Sample first-publication instant (one hour past 10:00 UTC granularity aside). -/
def sampleTime : DateTime := ⟨2024, 5, 1, 36000⟩

/-- A sample active daily row as admission would create it. -/
def sampleRow : Row :=
  { id := 1, chat_id := -100123, text := some "Hello", photo_file_id := none,
    document_file_id := none, caption := none, publish_at := sampleTime,
    original_publish_at := sampleTime, recurrence := .daily, pin := true, notify := true,
    delete_after_days := none, active := true, created_at := sampleCreated,
    max_end_date := ⟨2025, 4, 30, 0⟩,
    task_hash := generate_task_hash (-100123) (some "Hello") none none sampleTime .daily }

/-- A sample store holding just `sampleRow`. -/
def sampleDB : DB := { rows := [sampleRow], nextId := 2 }

/-- The fingerprint `add_scheduled_message` computes for a candidate: the digest of
(chat_id, text, photo_file_id, document_file_id, publish_at, recurrence). -/
def candidateHash (data : Candidate) : TaskHash :=
  generate_task_hash data.chat_id data.text data.photo_file_id data.document_file_id
    data.publish_at data.recurrence

/-- The row `add_scheduled_message` inserts when it admits `data` at instant `now`
under fresh id `id`. -/
def insertedRow (now : DateTime) (data : Candidate) (id : Nat) : Row :=
  { id := id, chat_id := data.chat_id, text := data.text,
    photo_file_id := data.photo_file_id, document_file_id := data.document_file_id,
    caption := data.caption, publish_at := data.publish_at,
    original_publish_at := data.publish_at, recurrence := data.recurrence,
    pin := data.pin, notify := data.notify, delete_after_days := data.delete_after_days,
    active := true, created_at := now, max_end_date := addDays now 365,
    task_hash := candidateHash data }

/-- A sample text candidate matching `sampleRow`. -/
def sampleCandidate : Candidate :=
  { chat_id := -100123, text := some "Hello", photo_file_id := none,
    document_file_id := none, caption := none, publish_at := sampleTime,
    recurrence := .daily, pin := true, notify := true, delete_after_days := none }

/-- A sample photo candidate carrying a caption. -/
def samplePhotoCandidate : Candidate :=
  { chat_id := -100123, text := none, photo_file_id := some "photoA",
    document_file_id := none, caption := some "caption one", publish_at := sampleTime,
    recurrence := .once, pin := false, notify := true, delete_after_days := none }

/-- The same photo candidate with a different caption. -/
def samplePhotoCandidate2 : Candidate :=
  { samplePhotoCandidate with caption := some "caption two" }

/-- A store holding one active `once` row, as admission of `samplePhotoCandidate`
would create it. -/
def sampleOnceDB : DB :=
  { rows := [insertedRow sampleCreated samplePhotoCandidate 1], nextId := 2 }

/-- Admission instant of the near-horizon scenario: 2024-01-01 00:00 UTC. -/
def c3_now : DateTime := ⟨2024, 1, 1, 0⟩

/-- First-publication instant of the near-horizon scenario: 2024-12-30 00:00 UTC,
354 days after admission and still inside the 365-day horizon. -/
def c3_start : DateTime := ⟨2024, 12, 30, 0⟩

/-- The daily candidate of the near-horizon scenario. -/
def c3_candidate : Candidate :=
  { chat_id := -100123, text := some "Hello", photo_file_id := none,
    document_file_id := none, caption := none, publish_at := c3_start,
    recurrence := .daily, pin := false, notify := true, delete_after_days := none }

/-- The store right after admitting `c3_candidate` into an empty store. -/
def c3_db1 : DB := { rows := [insertedRow c3_now c3_candidate 1], nextId := 2 }

/-- One successful daily fire of the scenario's row. -/
def c3_fire (db : DB) : DB :=
  publish_and_reschedule ⟨.sent 9, .pinned⟩ 1 (-100123) (some "Hello") none none none
    .daily false true none c3_start db

/-- An active row on an unrelated channel. -/
def otherRow : Row :=
  { id := 2, chat_id := -200, text := some "Other", photo_file_id := none,
    document_file_id := none, caption := none, publish_at := ⟨2024, 6, 1, 0⟩,
    original_publish_at := ⟨2024, 6, 1, 0⟩, recurrence := .weekly, pin := false,
    notify := true, delete_after_days := none, active := true,
    created_at := sampleCreated, max_end_date := ⟨2025, 4, 30, 0⟩,
    task_hash := generate_task_hash (-200) (some "Other") none none ⟨2024, 6, 1, 0⟩
      .weekly }

/-- A store holding active rows on two different channels. -/
def twoChatDB : DB := { rows := [sampleRow, otherRow], nextId := 3 }

/-- An instant one day after the sample row's scheduled time, making it overdue. -/
def overdueNow : DateTime := ⟨2024, 5, 2, 36000⟩

/-- Transitivity of the chronological order. -/
theorem DateTime.lt_trans {a b c : DateTime} (h1 : a.lt b) (h2 : b.lt c) : a.lt c := by
  unfold DateTime.lt at *
  omega

/-- The next calendar day is strictly later. -/
theorem lt_succDay (d : DateTime) : d.lt (succDay d) := by
  unfold succDay DateTime.lt
  split
  · simp
  · split
    · simp
    · simp

/-- Adding a positive number of days gives a strictly later timestamp. -/
theorem lt_addDays (d : DateTime) {n : Nat} (h : 0 < n) : d.lt (addDays d n) := by
  induction n with
  | zero => exact absurd h (by omega)
  | succ m ih =>
      cases Nat.eq_zero_or_pos m with
      | inl h0 => subst h0; exact lt_succDay d
      | inr hp => exact DateTime.lt_trans (ih hp) (lt_succDay _)

/-- Advancing one clamped calendar month gives a strictly later timestamp. -/
theorem lt_addMonthClamped (d : DateTime) : d.lt (addMonthClamped d) := by
  unfold addMonthClamped DateTime.lt
  split
  · simp
  · simp

/-- C7: the Recurrence Calculator maps `once` to none for all inputs; for daily, weekly
and monthly it returns last + 1 day, last + 7 days, and last advanced one clamped
calendar month respectively, each strictly greater than `last`; the result depends only
on (recurrence, last), not on the anchor; and monthly from the 31st of January lands on
the 28th (or, in a leap year, the 29th) of February. -/
theorem claim_C7_next_occurrence_calculator :
    (∀ original last, next_recurrence_time original .once last = none) ∧
    (∀ original last, next_recurrence_time original .daily last = some (addDays last 1)) ∧
    (∀ original last, next_recurrence_time original .weekly last = some (addDays last 7)) ∧
    (∀ original last,
      next_recurrence_time original .monthly last = some (addMonthClamped last)) ∧
    (∀ original last rec, rec ≠ Recurrence.once →
      ∃ t, next_recurrence_time original rec last = some t ∧ last.lt t) ∧
    (∀ o1 o2 rec last, next_recurrence_time o1 rec last = next_recurrence_time o2 rec last) ∧
    (∀ original y s, next_recurrence_time original .monthly ⟨y, 1, 31, s⟩ =
      some ⟨y, 2, if isLeap y then 29 else 28, s⟩) := by
  refine ⟨fun _ _ => rfl, fun _ _ => rfl, fun _ _ => rfl, fun _ _ => rfl, ?_, ?_, ?_⟩
  · intro original last rec h
    cases rec with
    | once => exact absurd rfl h
    | daily => exact ⟨_, rfl, lt_addDays last (by omega)⟩
    | weekly => exact ⟨_, rfl, lt_addDays last (by omega)⟩
    | monthly => exact ⟨_, rfl, lt_addMonthClamped last⟩
  · intro o1 o2 rec last
    cases rec <;> rfl
  · intro original y s
    unfold next_recurrence_time addMonthClamped daysInMonth
    cases h : isLeap y <;> simp [h]

/-- C7 witness: the strict-increase conjunct applied to a concrete daily instance. -/
theorem claim_C7_witness :
    ∃ t, next_recurrence_time ⟨2024, 1, 1, 0⟩ .daily ⟨2024, 1, 31, 0⟩ = some t ∧
      DateTime.lt ⟨2024, 1, 31, 0⟩ t :=
  claim_C7_next_occurrence_calculator.2.2.2.2.1 ⟨2024, 1, 1, 0⟩ ⟨2024, 1, 31, 0⟩ .daily
    (by decide)

/-- C8: when the delivery attempt fails with a `TelegramError` other than
`BadRequest`/`Forbidden` (the spec's `TransientError`), `publish_message` returns none,
`publish_and_reschedule` returns with no store mutation, and the store — every row,
every field — is unchanged. -/
theorem claim_C8_transient_error_no_mutation (msg_id : Nat) (chat_id : Int)
    (text photo_file_id document_file_id caption : Option String) (recurrence : Recurrence)
    (pin notify : Bool) (delete_after_days : Option Nat) (original_publish_at : DateTime)
    (pinRes : PinOutcome) (db : DB) :
    publish_and_reschedule ⟨.err .otherTelegram, pinRes⟩ msg_id chat_id text photo_file_id
      document_file_id caption recurrence pin notify delete_after_days original_publish_at
      db = db := rfl

/-- C9 counterexample: the send succeeds (outcome `sent 5`), a pin is requested, and the
pin call fails with a `TelegramError` that is neither `BadRequest` nor `Forbidden`; the
outer handler of `publish_message` then returns `None` — no delivered id — and
`publish_and_reschedule` skips rescheduling, leaving the store untouched (had delivery
been treated as successful, the active daily row's `publish_at` would have advanced).
This refutes the claim that a pin failure never turns a successful delivery into a
failure. -/
theorem claim_C9_counterexample :
    publish_message ⟨.sent 5, .err .otherTelegram⟩ (-100123) (some "Hello") none none none
      true true none = .ok none ∧
    publish_and_reschedule ⟨.sent 5, .err .otherTelegram⟩ 1 (-100123) (some "Hello") none
      none none .daily true true none sampleTime sampleDB = sampleDB :=
  ⟨rfl, rfl⟩

/-- C9 amended: when the send succeeds and the pin call fails with `BadRequest` or
`Forbidden`, the failure is swallowed and the delivery still returns the delivered id;
a pin failure of any other exception class, however, makes `publish_message` return
none, so the delivery is not treated as successful; with `pin = false` the pin outcome
is irrelevant. -/
theorem claim_C9_pin_failure_handling (mid : Nat) (chat_id : Int)
    (text photo document caption : Option String) (notify : Bool) (dad : Option Nat) :
    (publish_message ⟨.sent mid, .pinned⟩ chat_id text photo document caption
      true notify dad = .ok (some mid)) ∧
    (publish_message ⟨.sent mid, .err .badRequest⟩ chat_id text photo document caption
      true notify dad = .ok (some mid)) ∧
    (publish_message ⟨.sent mid, .err .forbidden⟩ chat_id text photo document caption
      true notify dad = .ok (some mid)) ∧
    (publish_message ⟨.sent mid, .err .otherTelegram⟩ chat_id text photo document caption
      true notify dad = .ok none) ∧
    (publish_message ⟨.sent mid, .err .otherException⟩ chat_id text photo document caption
      true notify dad = .ok none) ∧
    (∀ pinRes, publish_message ⟨.sent mid, pinRes⟩ chat_id text photo document caption
      false notify dad = .ok (some mid)) :=
  ⟨rfl, rfl, rfl, rfl, rfl, fun _ => rfl⟩

/-- Admission rewritten through the named fingerprint and inserted row; definitionally
equal to `add_scheduled_message`. -/
theorem add_eq (now : DateTime) (data : Candidate) (db : DB) :
    add_scheduled_message now data db =
      match db.rows.find? (fun r => r.task_hash == candidateHash data && r.active) with
      | some existing => .error (.duplicateTask existing.id)
      | none => .ok ({ rows := db.rows ++ [insertedRow now data db.nextId],
                       nextId := db.nextId + 1 }, db.nextId) := rfl

/-- Admission fails exactly when some active row already carries the candidate's
fingerprint. -/
theorem add_error_iff (now : DateTime) (data : Candidate) (db : DB) :
    (∃ e, add_scheduled_message now data db = .error e) ↔
      ∃ r ∈ db.rows, r.active = true ∧ r.task_hash = candidateHash data := by
  rw [add_eq]
  cases hf : db.rows.find? (fun r => r.task_hash == candidateHash data && r.active) with
  | some r =>
      have hp := List.find?_some hf
      have hm := List.mem_of_find?_eq_some hf
      simp only [Bool.and_eq_true, beq_iff_eq] at hp
      constructor
      · intro _
        exact ⟨r, hm, hp.2, hp.1⟩
      · intro _
        exact ⟨_, rfl⟩
  | none =>
      constructor
      · rintro ⟨e, he⟩
        cases he
      · rintro ⟨r, hr, hact, hhash⟩
        have hnot := List.find?_eq_none.mp hf r hr
        simp [hhash, hact] at hnot

/-- A successful admission returns the store's next fresh id and appends exactly the
inserted row. -/
theorem add_ok_shape {now : DateTime} {data : Candidate} {db db' : DB} {newId : Nat}
    (h : add_scheduled_message now data db = .ok (db', newId)) :
    newId = db.nextId ∧ db'.rows = db.rows ++ [insertedRow now data db.nextId] ∧
    db'.nextId = db.nextId + 1 := by
  rw [add_eq] at h
  cases hf : db.rows.find? (fun r => r.task_hash == candidateHash data && r.active) with
  | some r =>
      rw [hf] at h
      cases h
  | none =>
      rw [hf] at h
      simp only [Except.ok.injEq, Prod.mk.injEq] at h
      obtain ⟨hdb, hid⟩ := h
      subst hdb
      subst hid
      exact ⟨rfl, rfl, rfl⟩

/-- An active row carrying the candidate's fingerprint forces a `DuplicateTask`. -/
theorem add_duplicate_of_mem {now : DateTime} {data : Candidate} {db : DB}
    (r : Row) (hr : r ∈ db.rows) (hact : r.active = true)
    (hhash : r.task_hash = candidateHash data) :
    ∃ e, add_scheduled_message now data db = .error e :=
  (add_error_iff now data db).mpr ⟨r, hr, hact, hhash⟩

/-- C2: admission fails with `DuplicateTask` (creating nothing: the error branch
returns the store unchanged by purity) precisely when some active row shares the
candidate's fingerprint; otherwise it appends one new active row and returns the fresh
id, and — in particular — immediately re-admitting an identical candidate while the
first row is active is rejected. -/
theorem claim_C2_admission_dedup (now now2 : DateTime) (data : Candidate) (db : DB)
    (hfresh : ∀ r ∈ db.rows, r.id < db.nextId) :
    ((∃ e, add_scheduled_message now data db = .error e) ↔
      ∃ r ∈ db.rows, r.active = true ∧ r.task_hash = candidateHash data) ∧
    (∀ db' newId, add_scheduled_message now data db = .ok (db', newId) →
      newId = db.nextId ∧ (∀ r ∈ db.rows, r.id ≠ newId) ∧
      db'.rows = db.rows ++ [insertedRow now data newId] ∧
      (insertedRow now data newId).active = true ∧
      ∃ e, add_scheduled_message now2 data db' = .error e) := by
  refine ⟨add_error_iff now data db, ?_⟩
  intro db' newId h
  obtain ⟨hid, hrows, _⟩ := add_ok_shape h
  subst hid
  refine ⟨rfl, fun r hr => by have := hfresh r hr; omega, hrows, rfl, ?_⟩
  exact add_duplicate_of_mem (insertedRow now data db.nextId)
    (by rw [hrows]; simp) rfl rfl

/-- C2 witness: admitting `sampleCandidate` into an empty store succeeds, and the claim
theorem then rejects the identical second admission. -/
theorem claim_C2_witness :
    ∃ e, add_scheduled_message sampleCreated sampleCandidate
        { rows := [insertedRow sampleCreated sampleCandidate 1], nextId := 2 } =
      .error e :=
  ((claim_C2_admission_dedup sampleCreated sampleCreated sampleCandidate
      { rows := [], nextId := 1 } (by simp)).2 _ 1 rfl).2.2.2.2

/-- C10: the fingerprint is computed only from chat_id, text, photo_file_id,
document_file_id, publish_at and recurrence — the caption is not an input — so two
candidates that differ only in caption receive equal fingerprints, and admitting the
second right after the first succeeded is rejected as a duplicate. -/
theorem claim_C10_fingerprint_ignores_caption (c1 c2 : Candidate) (now now2 : DateTime)
    (db : DB) (hchat : c1.chat_id = c2.chat_id) (htext : c1.text = c2.text)
    (hphoto : c1.photo_file_id = c2.photo_file_id)
    (hdoc : c1.document_file_id = c2.document_file_id)
    (hpub : c1.publish_at = c2.publish_at) (hrec : c1.recurrence = c2.recurrence) :
    candidateHash c1 = candidateHash c2 ∧
    (∀ db' newId, add_scheduled_message now c1 db = .ok (db', newId) →
      ∃ e, add_scheduled_message now2 c2 db' = .error e) := by
  have hh : candidateHash c1 = candidateHash c2 := by
    unfold candidateHash generate_task_hash
    rw [hchat, htext, hphoto, hdoc, hpub, hrec]
  refine ⟨hh, ?_⟩
  intro db' newId h
  obtain ⟨hid, hrows, _⟩ := add_ok_shape h
  refine add_duplicate_of_mem (insertedRow now c1 db.nextId) (by rw [hrows]; simp) rfl ?_
  rw [show (insertedRow now c1 db.nextId).task_hash = candidateHash c1 from rfl, hh]

/-- C10 witness: the two sample photo candidates differ only in caption; the second is
rejected right after the first is admitted. -/
theorem claim_C10_witness :
    ∃ e, add_scheduled_message sampleCreated samplePhotoCandidate2
        { rows := [insertedRow sampleCreated samplePhotoCandidate 1], nextId := 2 } =
      .error e :=
  (claim_C10_fingerprint_ignores_caption samplePhotoCandidate samplePhotoCandidate2
      sampleCreated sampleCreated { rows := [], nextId := 1 } rfl rfl rfl rfl rfl
      rfl).2 _ 1 rfl

/-- Membership in the active scan: exactly the active rows of the store. -/
theorem mem_get_all_active (db : DB) (r : Row) :
    r ∈ get_all_active_messages db ↔ r ∈ db.rows ∧ r.active = true := by
  unfold get_all_active_messages
  simp [List.mem_insertionSort, List.mem_filter]


/-- C6: after a successful delivery of a `once` task, every row bearing the fired id is
inactive and the fired id no longer appears in the active scan. -/
theorem claim_C6_once_delivery_retires (env : TgEnv) (msg_id : Nat) (chat_id : Int)
    (text photo_file_id document_file_id caption : Option String) (pin notify : Bool)
    (delete_after_days : Option Nat) (original_publish_at : DateTime) (db : DB)
    (mid : Nat)
    (hpub : publish_message env chat_id text photo_file_id document_file_id caption
      pin notify delete_after_days = .ok (some mid)) :
    (∀ r ∈ (publish_and_reschedule env msg_id chat_id text photo_file_id
        document_file_id caption Recurrence.once pin notify delete_after_days
        original_publish_at db).rows, r.id = msg_id → r.active = false) ∧
    (∀ r ∈ get_all_active_messages (publish_and_reschedule env msg_id chat_id text
        photo_file_id document_file_id caption Recurrence.once pin notify
        delete_after_days original_publish_at db), r.id ≠ msg_id) := by
  have hstep : publish_and_reschedule env msg_id chat_id text photo_file_id
      document_file_id caption Recurrence.once pin notify delete_after_days
      original_publish_at db = deactivate_message db msg_id := by
    unfold publish_and_reschedule
    rw [hpub]
    dsimp only
    rw [if_neg (by simp)]
  rw [hstep]
  have hrows : ∀ r ∈ (deactivate_message db msg_id).rows,
      r.id = msg_id → r.active = false := by
    intro r hr hid
    unfold deactivate_message at hr
    obtain ⟨r0, hr0, hfr⟩ := List.mem_map.mp hr
    by_cases h : r0.id = msg_id
    · rw [if_pos h] at hfr
      rw [← hfr]
    · rw [if_neg h] at hfr
      rw [← hfr] at hid
      exact absurd hid h
  refine ⟨hrows, ?_⟩
  intro r hr hid
  obtain ⟨hmem, hact⟩ := (mem_get_all_active _ r).mp hr
  have := hrows r hmem hid
  rw [this] at hact
  cases hact

/-- C6 witness: a store holding one active `once` row; after its successful delivery
the row is inactive and the active scan is empty of it. -/
theorem claim_C6_witness :
    (∀ r ∈ (publish_and_reschedule ⟨.sent 3, .pinned⟩ 1 (-100123) none
        (some "photoA") none (some "caption one") Recurrence.once false true none
        sampleTime sampleOnceDB).rows, r.id = 1 → r.active = false) ∧
    (∀ r ∈ get_all_active_messages (publish_and_reschedule ⟨.sent 3, .pinned⟩ 1
        (-100123) none (some "photoA") none (some "caption one") Recurrence.once false
        true none sampleTime sampleOnceDB), r.id ≠ 1) :=
  claim_C6_once_delivery_retires ⟨.sent 3, .pinned⟩ 1 (-100123) none (some "photoA")
    none (some "caption one") false true none sampleTime sampleOnceDB 3 rfl

/-- Strictly earlier timestamps are different. -/
theorem DateTime.ne_of_lt {a b : DateTime} (h : a.lt b) : a ≠ b := by
  intro he
  subst he
  unfold DateTime.lt at h
  omega

/-- For the three repeating cadences the computed next occurrence is strictly after
the previous fire time. -/
theorem next_gt_last {orig last t : DateTime} {rec : Recurrence}
    (hrec : rec ≠ Recurrence.once)
    (h : next_recurrence_time orig rec last = some t) : last.lt t := by
  cases rec with
  | once => exact absurd rfl hrec
  | daily =>
      simp only [next_recurrence_time, Option.some.injEq] at h
      rw [← h]
      exact lt_addDays last (by omega)
  | weekly =>
      simp only [next_recurrence_time, Option.some.injEq] at h
      rw [← h]
      exact lt_addDays last (by omega)
  | monthly =>
      simp only [next_recurrence_time, Option.some.injEq] at h
      rw [← h]
      exact lt_addMonthClamped last

/-- After a successful delivery of a recurring task the protocol mutates nothing: the
tuple-row subscript `task['publish_at']` raises `TypeError`, the except arm at
scheduler_logic.py:181-183 swallows it, and the function returns the store as it was —
whether or not the row is even found. -/
theorem recurring_success_no_mutation (env : TgEnv) (msg_id : Nat) (chat_id : Int)
    (text photo_file_id document_file_id caption : Option String)
    (recurrence : Recurrence) (pin notify : Bool) (delete_after_days : Option Nat)
    (original_publish_at : DateTime) (db : DB) (mid : Nat)
    (hpub : publish_message env chat_id text photo_file_id document_file_id caption pin
      notify delete_after_days = .ok (some mid))
    (hrec : recurrence ≠ Recurrence.once) :
    publish_and_reschedule env msg_id chat_id text photo_file_id document_file_id
      caption recurrence pin notify delete_after_days original_publish_at db = db := by
  unfold publish_and_reschedule
  rw [hpub]
  dsimp only
  rw [if_pos hrec]
  cases hfind : get_message_by_id db msg_id with
  | none => rfl
  | some task => rfl

/-- C1 (code bug): after a successful delivery of a recurring task — even one whose
computed next occurrence stays within `max_end_date` — the code never advances the
row: `task['publish_at']` on the tuple row raises `TypeError`, swallowed at
scheduler_logic.py:181-183, and the store is returned unchanged.  The fired row keeps
its old `publish_at`, which is strictly earlier than (hence different from) the
computed next occurrence the claim says it should equal. -/
theorem claim_C1_recurring_success_no_advance (env : TgEnv) (msg_id : Nat)
    (chat_id : Int) (text photo_file_id document_file_id caption : Option String)
    (recurrence : Recurrence) (pin notify : Bool) (delete_after_days : Option Nat)
    (original_publish_at : DateTime) (db : DB) (task : Row) (mid : Nat)
    (next_time : DateTime)
    (hpub : publish_message env chat_id text photo_file_id document_file_id caption pin
      notify delete_after_days = .ok (some mid))
    (hrec : recurrence ≠ Recurrence.once)
    (htask : get_message_by_id db msg_id = some task)
    (hnext : next_recurrence_time original_publish_at recurrence task.publish_at =
      some next_time)
    (hle : ¬ DateTime.lt task.max_end_date next_time) :
    publish_and_reschedule env msg_id chat_id text photo_file_id document_file_id
      caption recurrence pin notify delete_after_days original_publish_at db = db ∧
    get_message_by_id (publish_and_reschedule env msg_id chat_id text photo_file_id
      document_file_id caption recurrence pin notify delete_after_days
      original_publish_at db) msg_id = some task ∧
    task.publish_at ≠ next_time := by
  have hno := recurring_success_no_mutation env msg_id chat_id text photo_file_id
    document_file_id caption recurrence pin notify delete_after_days
    original_publish_at db mid hpub hrec
  refine ⟨hno, ?_, ?_⟩
  · rw [hno, htask]
  · exact DateTime.ne_of_lt (next_gt_last hrec hnext)

/-- C1 witness: the sample daily row delivered successfully one hour into its first
day, with the computed next occurrence within the 365-day ceiling: the store is
unchanged and `publish_at` is not the next occurrence. -/
theorem claim_C1_witness :
    publish_and_reschedule ⟨.sent 7, .pinned⟩ 1 (-100123) (some "Hello") none none none
      .daily true true none sampleTime sampleDB = sampleDB ∧
    get_message_by_id (publish_and_reschedule ⟨.sent 7, .pinned⟩ 1 (-100123)
      (some "Hello") none none none .daily true true none sampleTime sampleDB) 1 =
      some sampleRow ∧
    sampleRow.publish_at ≠ addDays sampleTime 1 :=
  claim_C1_recurring_success_no_advance ⟨.sent 7, .pinned⟩ 1 (-100123) (some "Hello")
    none none none .daily true true none sampleTime sampleDB sampleRow 7
    (addDays sampleTime 1) rfl (by decide) rfl rfl (by decide)

/-- C3 (code bug): admission does stamp `created_at = now` and
`max_end_date = now + 365 days`, but the retirement the claim describes never happens:
a successful recurring delivery leaves the store unchanged (the tuple-row subscript
kills the pipeline before the ceiling check), so the near-horizon daily row, fired
successfully any number of consecutive cycles, is never advanced and never becomes
inactive — at the `created_at` horizon or any other. -/
theorem claim_C3_recurring_never_retired :
    (∀ now data db db' newId,
      add_scheduled_message now data db = Except.ok (db', newId) →
      ∃ row, db'.rows = db.rows ++ [row] ∧ row.created_at = now ∧
        row.max_end_date = addDays now 365) ∧
    (∀ env msg_id chat_id text photo document caption recurrence pin notify dad
        original db mid,
      publish_message env chat_id text photo document caption pin notify dad =
        Except.ok (some mid) →
      recurrence ≠ Recurrence.once →
      publish_and_reschedule env msg_id chat_id text photo document caption recurrence
        pin notify dad original db = db) ∧
    add_scheduled_message c3_now c3_candidate { rows := [], nextId := 1 } =
      Except.ok (c3_db1, 1) ∧
    (∀ n, c3_fire^[n] c3_db1 = c3_db1) ∧
    (∀ n, ∀ r ∈ (c3_fire^[n] c3_db1).rows, r.active = true) := by
  have hfire : ∀ db, c3_fire db = db := fun db =>
    recurring_success_no_mutation ⟨.sent 9, .pinned⟩ 1 (-100123) (some "Hello") none
      none none .daily false true none c3_start db 9 rfl (by decide)
  have hiter : ∀ n, c3_fire^[n] c3_db1 = c3_db1 := by
    intro n
    induction n with
    | zero => rfl
    | succ k ih => rw [Function.iterate_succ_apply', ih, hfire]
  refine ⟨?_, ?_, rfl, hiter, ?_⟩
  · intro now data db db' newId h
    obtain ⟨hid, hrows, _⟩ := add_ok_shape h
    refine ⟨insertedRow now data db.nextId, hrows, ?_, ?_⟩
    · unfold insertedRow
      with_reducible rfl
    · unfold insertedRow
      with_reducible rfl
  · intro env msg_id chat_id text photo document caption recurrence pin notify dad
      original db mid hpub hrec
    exact recurring_success_no_mutation env msg_id chat_id text photo document caption
      recurrence pin notify dad original db mid hpub hrec
  · intro n r hr
    rw [hiter n] at hr
    have hone : r = insertedRow c3_now c3_candidate 1 := by
      simpa [c3_db1] using hr
    rw [hone]
    unfold insertedRow
    with_reducible rfl

/-- C3 witness: one successful fire of the admitted near-horizon row, with the
delivery hypotheses discharged concretely: the store comes back unchanged. -/
theorem claim_C3_witness :
    publish_and_reschedule ⟨.sent 9, .pinned⟩ 1 (-100123) (some "Hello") none none none
      .daily false true none c3_start c3_db1 = c3_db1 :=
  claim_C3_recurring_never_retired.2.1 ⟨.sent 9, .pinned⟩ 1 (-100123) (some "Hello")
    none none none .daily false true none c3_start c3_db1 9 rfl (by decide)

/-- C4 (code bug): channel-wide suspension deactivates nothing: on a non-empty active
snapshot the first iteration's `task['chat_id']` raises `TypeError`, swallowed by
`deactivate_chat_tasks`'s own `except Exception` (scheduler_logic.py:274), and on an
empty snapshot there is nothing to deactivate — so a `BadRequest`/`Forbidden` delivery
failure returns the store, the firing channel's active rows included, unchanged. -/
theorem claim_C4_channel_failure_deactivates_nothing (db : DB) (chat_id : Int) :
    deactivate_chat_tasks db chat_id = db ∧
    (∀ pinRes e msg_id text photo_file_id document_file_id caption recurrence pin
        notify delete_after_days original_publish_at,
      e = TgErr.badRequest ∨ e = TgErr.forbidden →
      publish_and_reschedule ⟨.err e, pinRes⟩ msg_id chat_id text photo_file_id
        document_file_id caption recurrence pin notify delete_after_days
        original_publish_at db = db) := by
  have hdct : deactivate_chat_tasks db chat_id = db := by
    unfold deactivate_chat_tasks
    cases hs : get_all_active_messages db with
    | nil => rfl
    | cons t rest => rfl
  refine ⟨hdct, ?_⟩
  intro pinRes e msg_id text photo_file_id document_file_id caption recurrence pin
    notify delete_after_days original_publish_at he
  cases he with
  | inl h =>
      subst h
      exact hdct
  | inr h =>
      subst h
      exact hdct

/-- C4 witness: the two-channel store has an active row on the failing channel
-100123, yet the `Forbidden` failure leaves the whole store — that row included —
unchanged. -/
theorem claim_C4_witness :
    (∃ r ∈ twoChatDB.rows, r.chat_id = -100123 ∧ r.active = true) ∧
    publish_and_reschedule ⟨.err .forbidden, .pinned⟩ 1 (-100123) (some "Hello") none
      none none .daily true true none sampleTime twoChatDB = twoChatDB :=
  ⟨by decide, (claim_C4_channel_failure_deactivates_nothing twoChatDB (-100123)).2
    .pinned .forbidden 1 (some "Hello") none none none .daily true true none sampleTime
    (Or.inr rfl)⟩

/-- C5 counterexample: the store holds an active row, but its `publish_at` is already
past, so the rebuilt timer set is empty — the overdue row neither gets a timer nor
fires, refuting the claim that exactly one timer is armed per active row with
due/overdue rows firing immediately. -/
theorem claim_C5_counterexample :
    bot_get_all_active_messages sampleDB ≠ [] ∧
    schedule_all_jobs overdueNow sampleDB = [] := by
  constructor
  · decide
  · decide

/-- The timer ids of the rebuilt set are the ids of the future-scheduled slice of the
scan the rebuild read. -/
theorem schedule_all_jobs_ids (now : DateTime) (db : DB) :
    (schedule_all_jobs now db).map Job.msg_id =
      ((get_all_active_messages db).filter
        (fun r => DateTime.lt now r.publish_at)).map Row.id := by
  unfold schedule_all_jobs bot_get_all_active_messages
  generalize get_all_active_messages db = l
  induction l with
  | nil => rfl
  | cons a t ih =>
      by_cases h : DateTime.lt now a.publish_at
      · simp only [List.map_cons, List.filter_cons]
        simp [h, ih]
      · simp only [List.map_cons, List.filter_cons]
        simp [h, ih]

/-- C5 amended: on every rebuild all armed timers are cancelled, and (in a table with
pairwise-distinct ids) the fresh timer set holds exactly one one-shot timer, at the
row's `publish_at`, for each active row whose `publish_at` is strictly in the future;
active rows already due or overdue receive no timer and are not fired. -/
theorem claim_C5_rebuild_is_future_only (now : DateTime) (db : DB)
    (hids : (db.rows.map Row.id).Nodup) :
    (∀ j, j ∈ schedule_all_jobs now db ↔
      ∃ r ∈ db.rows, r.active = true ∧ DateTime.lt now r.publish_at ∧
        j.msg_id = r.id ∧ j.publish_at = r.publish_at) ∧
    ((schedule_all_jobs now db).map Job.msg_id).Nodup := by
  constructor
  · intro j
    unfold schedule_all_jobs bot_get_all_active_messages
    simp only [List.mem_map, List.mem_filter, decide_eq_true_eq]
    constructor
    · rintro ⟨b, ⟨⟨r, hmem, hproj⟩, hq⟩, hj⟩
      obtain ⟨hrows, hact⟩ := (mem_get_all_active db r).mp hmem
      subst hproj
      refine ⟨r, hrows, hact, hq, ?_, ?_⟩
      · rw [← hj]
      · rw [← hj]
    · rintro ⟨r, hrows, hact, hlt, hmsg, hpub⟩
      refine ⟨_, ⟨⟨r, (mem_get_all_active db r).mpr ⟨hrows, hact⟩, rfl⟩, hlt⟩, ?_⟩
      cases j
      simp_all
  · have h1 : ((db.rows.filter (fun r => r.active)).map Row.id).Nodup :=
      hids.sublist ((List.filter_sublist _).map Row.id)
    have h2 : ((get_all_active_messages db).map Row.id).Nodup := by
      unfold get_all_active_messages
      exact (((List.perm_insertionSort publishBefore _).map Row.id).nodup_iff).mpr h1
    rw [schedule_all_jobs_ids now db]
    exact h2.sublist ((List.filter_sublist _).map Row.id)

/-- C5 witness: the amended rebuild characterisation applied to the two-channel store
at an instant before either row is due. -/
theorem claim_C5_witness :
    (∀ j, j ∈ schedule_all_jobs sampleCreated twoChatDB ↔
      ∃ r ∈ twoChatDB.rows, r.active = true ∧
        DateTime.lt sampleCreated r.publish_at ∧
        j.msg_id = r.id ∧ j.publish_at = r.publish_at) ∧
    ((schedule_all_jobs sampleCreated twoChatDB).map Job.msg_id).Nodup :=
  claim_C5_rebuild_is_future_only sampleCreated twoChatDB (by decide)
